import Mathlib

/-!
Shallow embedding of `sort-css-media-queries` (src/index.js).

The source classifies CSS media-query strings with precompiled regular
expressions, extracts a pixel-normalized length from the first
number-followed-by-unit occurrence, and compares two query strings with a
mobile-first comparator `sortCSSmq` and a desktop-first comparator
`sortCSSmq.desktopFirst`.

Modelling choices:
* a JS regular expression `.test` call is embedded as a decidable scan over
  the character list of the string; each concrete pattern of the source is
  embedded as its own matching function (the patterns use no backtracking
  beyond an optional literal group, which is modelled exactly);
* the numeric values are modelled as exact rationals (`ℚ`); the JS sentinel
  `Number.MAX_VALUE` returned by `getQueryLength` when no number/unit pair is
  found is modelled as `none : Option ℚ`;
* `String.prototype.localeCompare` is an implementation-defined total
  ordering on strings; it is modelled by the lexicographic order on Lean
  strings, collapsed to `{-1, 0, 1}`.
-/

namespace SortCSSMQ

/-- The JS `\s` character class: whitespace and line terminators. -/
def isSpaceChar (c : Char) : Bool :=
  c.toNat = 9 || c.toNat = 10 || c.toNat = 11 || c.toNat = 12 || c.toNat = 13 ||
  c.toNat = 32 || c.toNat = 0xa0 || c.toNat = 0x1680 ||
  (0x2000 ≤ c.toNat && c.toNat ≤ 0x200a) ||
  c.toNat = 0x2028 || c.toNat = 0x2029 || c.toNat = 0x202f ||
  c.toNat = 0x205f || c.toNat = 0x3000 || c.toNat = 0xfeff

/-- The JS line terminators, which the regex dot `.` does not match. -/
def isLineTerminator (c : Char) : Bool :=
  c.toNat = 10 || c.toNat = 13 || c.toNat = 0x2028 || c.toNat = 0x2029

/-- Greedily consume `\s*`.  In every source pattern the character after
`\s*` is `m`, which is not whitespace, so greedy consumption is exact. -/
def dropSpaces : List Char → List Char
  | [] => []
  | c :: cs => if isSpaceChar c then dropSpaces cs else c :: cs

/-- Match a literal character sequence at the head of the input, returning
the rest of the input on success. -/
def matchLit : List Char → List Char → Option (List Char)
  | [], s => some s
  | _ :: _, [] => none
  | c :: cs, d :: ds => if c = d then matchLit cs ds else none

/-- Match `\(\s*kw(grp)?suff` at the head of `s` (e.g. kw = `min`,
grp = `-device`, suff = `-width`).  The regex first tries the optional
group and falls back to omitting it; since `grp` and `suff` differ at
their second character the two branches never overlap, so the result is
deterministic.  The `!?` that precedes `\(` in the combined source
patterns is irrelevant to `.test` (an optional prefix never changes
matchability anywhere in the string) and is omitted. -/
def matchFeature (kw grp suff : List Char) (s : List Char) : Option (List Char) :=
  match s with
  | '(' :: rest =>
    match matchLit kw (dropSpaces rest) with
    | none => none
    | some r2 =>
      match matchLit grp r2 with
      | some r3 =>
        match matchLit suff r3 with
        | some r4 => some r4
        | none => matchLit suff r2
      | none => matchLit suff r2
  | _ => none

/-- `.test` of an unanchored pattern: try the matcher at every suffix. -/
def searchSingle (m : List Char → Option (List Char)) : List Char → Bool
  | [] => (m []).isSome
  | c :: cs => (m (c :: cs)).isSome || searchSingle m cs

/-- `.+B` anchored at the head: consume at least one non-line-terminator
character, then match `B` at some later point of the same line run. -/
def dotPlusThen (m : List Char → Option (List Char)) : List Char → Bool
  | [] => false
  | c :: cs => !isLineTerminator c && ((m cs).isSome || dotPlusThen m cs)

/-- `.test` of a combined pattern `A.+B`: at some suffix, `A` matches and
is followed (after at least one character) by a match of `B`. -/
def searchDouble (mA mB : List Char → Option (List Char)) : List Char → Bool
  | [] =>
    (match mA [] with
     | some r => dotPlusThen mB r
     | none => false)
  | c :: cs =>
    (match mA (c :: cs) with
     | some r => dotPlusThen mB r
     | none => false) || searchDouble mA mB cs

/-- `\(\s*min(-device)?-width` at the head. -/
def matchMinWidthAt (s : List Char) : Option (List Char) :=
  matchFeature "min".data "-device".data "-width".data s

/-- `\(\s*max(-device)?-width` at the head. -/
def matchMaxWidthAt (s : List Char) : Option (List Char) :=
  matchFeature "max".data "-device".data "-width".data s

/-- `\(\s*min(-device)?-height` at the head. -/
def matchMinHeightAt (s : List Char) : Option (List Char) :=
  matchFeature "min".data "-device".data "-height".data s

/-- `\(\s*max(-device)?-height` at the head. -/
def matchMaxHeightAt (s : List Char) : Option (List Char) :=
  matchFeature "max".data "-device".data "-height".data s

/-- `\(\s*min(-device-)?-width` at the head: the first half of the
`minMaxWidth` source pattern, whose optional group is `-device-` (with a
trailing dash) unlike every sibling pattern whose group is `-device`. -/
def matchMinWidthQuirkAt (s : List Char) : Option (List Char) :=
  matchFeature "min".data "-device-".data "-width".data s

/-- `minMaxWidth = /(!?\(\s*min(-device-)?-width).+\(\s*max(-device)?-width/` -/
def minMaxWidth (q : String) : Bool :=
  searchDouble matchMinWidthQuirkAt matchMaxWidthAt q.data

/-- `minWidth = /\(\s*min(-device)?-width/` -/
def minWidth (q : String) : Bool :=
  searchSingle matchMinWidthAt q.data

/-- `maxMinWidth = /(!?\(\s*max(-device)?-width).+\(\s*min(-device)?-width/` -/
def maxMinWidth (q : String) : Bool :=
  searchDouble matchMaxWidthAt matchMinWidthAt q.data

/-- `maxWidth = /\(\s*max(-device)?-width/` -/
def maxWidth (q : String) : Bool :=
  searchSingle matchMaxWidthAt q.data

/-- `minMaxHeight = /(!?\(\s*min(-device)?-height).+\(\s*max(-device)?-height/` -/
def minMaxHeight (q : String) : Bool :=
  searchDouble matchMinHeightAt matchMaxHeightAt q.data

/-- `minHeight = /\(\s*min(-device)?-height/` -/
def minHeight (q : String) : Bool :=
  searchSingle matchMinHeightAt q.data

/-- `maxMinHeight = /(!?\(\s*max(-device)?-height).+\(\s*min(-device)?-height/` -/
def maxMinHeight (q : String) : Bool :=
  searchDouble matchMaxHeightAt matchMinHeightAt q.data

/-- `maxHeight = /\(\s*max(-device)?-height/` -/
def maxHeight (q : String) : Bool :=
  searchSingle matchMaxHeightAt q.data

/-- `function testQuery (doubleTestTrue, doubleTestFalse, singleTest)`. -/
def testQuery (doubleTestTrue doubleTestFalse singleTest : String → Bool)
    (query : String) : Bool :=
  if doubleTestTrue query then true
  else if doubleTestFalse query then false
  else singleTest query

/-- `isMinWidth = testQuery(minMaxWidth, maxMinWidth, minWidth)` -/
def isMinWidth : String → Bool := testQuery minMaxWidth maxMinWidth minWidth

/-- `isMaxWidth = testQuery(maxMinWidth, minMaxWidth, maxWidth)` -/
def isMaxWidth : String → Bool := testQuery maxMinWidth minMaxWidth maxWidth

/-- `isMinHeight = testQuery(minMaxHeight, maxMinHeight, minHeight)` -/
def isMinHeight : String → Bool := testQuery minMaxHeight maxMinHeight minHeight

/-- `isMaxHeight = testQuery(maxMinHeight, minMaxHeight, maxHeight)` -/
def isMaxHeight : String → Bool := testQuery maxMinHeight minMaxHeight maxHeight

/-- Value of a decimal digit string. -/
def digitsVal (ds : List Char) : ℕ :=
  ds.foldl (fun a c => 10 * a + (c.toNat - 48)) 0

/-- Unit alternation `(ch|em|ex|px|rem)` of the `getQueryLength` pattern,
returning the pixel multiplier applied by the `switch` of the source as an
exact fraction (numerator, denominator):
`ch ↦ 1139/128 = 8.8984375`, `em, rem ↦ 16`, `ex ↦ 531/64 = 8.296875`,
`px ↦ 1`. -/
def matchUnitFactor : List Char → Option (ℤ × ℕ)
  | 'c' :: 'h' :: _ => some (1139, 128)
  | 'e' :: 'm' :: _ => some (16, 1)
  | 'e' :: 'x' :: _ => some (531, 64)
  | 'p' :: 'x' :: _ => some (1, 1)
  | 'r' :: 'e' :: 'm' :: _ => some (16, 1)
  | _ => none

/-- Exact value of the numeral `[-]ip[.fp]` captured by `(-?\d*\.?\d+)`,
multiplied by the unit factor: `±(ip.fp) * (factor.1 / factor.2)`.
Computed as a single `mkRat` so that the kernel can evaluate it (the
rational-arithmetic operations of the library are irreducible). -/
def pixelValue (neg : Bool) (ip fp : List Char) (factor : ℤ × ℕ) : ℚ :=
  let mag : ℤ := (digitsVal ip : ℤ) * (10 : ℤ) ^ fp.length + (digitsVal fp : ℤ)
  mkRat ((if neg then -mag else mag) * factor.1) (10 ^ fp.length * factor.2)

/-- Match `\d*\.?\d+(ch|em|ex|px|rem)` at the head (sign already handled),
returning the pixel-normalized value.  Since the unit alternatives all
start with a letter while the numeral consumes only digits and a dot, the
numeral of a successful match is exactly the maximal digit/dot run at this
position, which must fit `\d*\.?\d+`; this is what is implemented here. -/
def matchNumCore (neg : Bool) (t : List Char) : Option ℚ :=
  let ip := t.takeWhile Char.isDigit
  let r1 := t.drop ip.length
  match r1 with
  | '.' :: r2 =>
    let fp := r2.takeWhile Char.isDigit
    if fp.isEmpty then none
    else
      match matchUnitFactor (r2.drop fp.length) with
      | some f => some (pixelValue neg ip fp f)
      | none => none
  | _ =>
    if ip.isEmpty then none
    else
      match matchUnitFactor r1 with
      | some f => some (pixelValue neg ip [] f)
      | none => none

/-- Match `(-?\d*\.?\d+)(ch|em|ex|px|rem)` at the head of the input. -/
def matchNumUnitAt : List Char → Option ℚ
  | '-' :: t => matchNumCore true t
  | t => matchNumCore false t

/-- Leftmost match of the `getQueryLength` pattern (`RegExp.exec`). -/
def scanNumUnit : List Char → Option ℚ
  | [] => matchNumUnitAt []
  | c :: cs =>
    match matchNumUnitAt (c :: cs) with
    | some v => some v
    | none => scanNumUnit cs

/-- `function getQueryLength (length)`: the pixel-normalized value of the
first number/unit occurrence, or the sentinel (modelled as `none`; the
source returns `Number.MAX_VALUE`). -/
def getQueryLength (length : String) : Option ℚ :=
  scanNumUnit length.data

/-- Model of `a.localeCompare(b)`: a total ordering on strings collapsed
to a sign. -/
def localeCompare (a b : String) : Int :=
  if a < b then -1 else if b < a then 1 else 0

/-- `function sortCSSmq (a, b)`: the mobile-first comparator. -/
def sortCSSmq (a b : String) : Int :=
  let minA := isMinWidth a || isMinHeight a
  let maxA := isMaxWidth a || isMaxHeight a
  let minB := isMinWidth b || isMinHeight b
  let maxB := isMaxWidth b || isMaxHeight b
  if minA && maxB then -1
  else if maxA && minB then 1
  else
    match getQueryLength a, getQueryLength b with
    | none, none => localeCompare a b
    | none, some _ => 1
    | some _, none => -1
    | some lengthA, some lengthB =>
      if lengthA > lengthB then if maxA then -1 else 1
      else if lengthA < lengthB then if maxA then 1 else -1
      else localeCompare a b

/-- `sortCSSmq.desktopFirst = function (a, b)`: the desktop-first
comparator.  Identical to `sortCSSmq` except that the two min/max
priority branches return the opposite signs and the final lexicographic
tie-break is negated. -/
def sortCSSmq.desktopFirst (a b : String) : Int :=
  let minA := isMinWidth a || isMinHeight a
  let maxA := isMaxWidth a || isMaxHeight a
  let minB := isMinWidth b || isMinHeight b
  let maxB := isMaxWidth b || isMaxHeight b
  if minA && maxB then 1
  else if maxA && minB then -1
  else
    match getQueryLength a, getQueryLength b with
    | none, none => localeCompare a b
    | none, some _ => 1
    | some _, none => -1
    | some lengthA, some lengthB =>
      if lengthA > lengthB then if maxA then -1 else 1
      else if lengthA < lengthB then if maxA then 1 else -1
      else -(localeCompare a b)

/-! ## Helper lemmas -/

/-- Unfolding lemma for `sortCSSmq` with the local bindings inlined. -/
theorem sortCSSmq_def (a b : String) :
    sortCSSmq a b =
      (if (isMinWidth a || isMinHeight a) && (isMaxWidth b || isMaxHeight b) then -1
       else if (isMaxWidth a || isMaxHeight a) && (isMinWidth b || isMinHeight b) then 1
       else
         match getQueryLength a, getQueryLength b with
         | none, none => localeCompare a b
         | none, some _ => 1
         | some _, none => -1
         | some lengthA, some lengthB =>
           if lengthA > lengthB then if (isMaxWidth a || isMaxHeight a) then -1 else 1
           else if lengthA < lengthB then if (isMaxWidth a || isMaxHeight a) then 1 else -1
           else localeCompare a b) := rfl

/-- Unfolding lemma for `sortCSSmq.desktopFirst` with the local bindings
inlined. -/
theorem desktopFirst_def (a b : String) :
    sortCSSmq.desktopFirst a b =
      (if (isMinWidth a || isMinHeight a) && (isMaxWidth b || isMaxHeight b) then 1
       else if (isMaxWidth a || isMaxHeight a) && (isMinWidth b || isMinHeight b) then -1
       else
         match getQueryLength a, getQueryLength b with
         | none, none => localeCompare a b
         | none, some _ => 1
         | some _, none => -1
         | some lengthA, some lengthB =>
           if lengthA > lengthB then if (isMaxWidth a || isMaxHeight a) then -1 else 1
           else if lengthA < lengthB then if (isMaxWidth a || isMaxHeight a) then 1 else -1
           else -(localeCompare a b)) := rfl

theorem bool_eq_false {x : Bool} (h : ¬(x = true)) : x = false := by
  cases x
  · rfl
  · exact absurd rfl h

theorem localeCompare_antisymm (a b : String) :
    localeCompare a b = -(localeCompare b a) := by
  unfold localeCompare
  rcases lt_trichotomy a b with h | h | h
  · rw [if_pos h, if_neg (asymm h), if_pos h]
  · subst h
    rw [if_neg (lt_irrefl a), if_neg (lt_irrefl a)]
    simp
  · rw [if_neg (asymm h), if_pos h, if_pos h]
    simp

/-! ## Claims -/

/-- C4: if `a` is classified as having a minimum-bound feature and `b` as
having a maximum-bound feature, the mobile-first comparator returns the
negative result `-1` (a before b) and the desktop-first comparator returns
the positive result `1` (b before a). -/
theorem minBound_before_maxBound (a b : String)
    (hA : (isMinWidth a || isMinHeight a) = true)
    (hB : (isMaxWidth b || isMaxHeight b) = true) :
    sortCSSmq a b = -1 ∧ sortCSSmq.desktopFirst a b = 1 := by
  rw [sortCSSmq_def, desktopFirst_def]
  simp [hA, hB]

theorem minBound_before_maxBound_witness :
    (isMinWidth "(min-width: 1px)" || isMinHeight "(min-width: 1px)") = true ∧
      (isMaxWidth "(max-width: 2px)" || isMaxHeight "(max-width: 2px)") = true ∧
      sortCSSmq "(min-width: 1px)" "(max-width: 2px)" = -1 ∧
      sortCSSmq.desktopFirst "(min-width: 1px)" "(max-width: 2px)" = 1 := by
  refine ⟨by decide, by decide, ?_⟩
  exact minBound_before_maxBound "(min-width: 1px)" "(max-width: 2px)" (by decide) (by decide)

/-- C10: a string classified as having both a minimum bound and a maximum
bound does not compare equal to itself: the first priority check fires, so
the mobile-first comparator yields `-1` and the desktop-first one `1`. -/
theorem self_compare_min_and_max (a : String)
    (h1 : (isMinWidth a || isMinHeight a) = true)
    (h2 : (isMaxWidth a || isMaxHeight a) = true) :
    sortCSSmq a a = -1 ∧ sortCSSmq.desktopFirst a a = 1 := by
  rw [sortCSSmq_def, desktopFirst_def]
  simp [h1, h2]

theorem self_compare_min_and_max_witness :
    (isMinWidth "(min-width: 1px) and (max-height: 2px)" ||
        isMinHeight "(min-width: 1px) and (max-height: 2px)") = true ∧
      (isMaxWidth "(min-width: 1px) and (max-height: 2px)" ||
        isMaxHeight "(min-width: 1px) and (max-height: 2px)") = true ∧
      sortCSSmq "(min-width: 1px) and (max-height: 2px)"
        "(min-width: 1px) and (max-height: 2px)" = -1 ∧
      sortCSSmq.desktopFirst "(min-width: 1px) and (max-height: 2px)"
        "(min-width: 1px) and (max-height: 2px)" = 1 := by
  refine ⟨by decide, by decide, ?_⟩
  exact self_compare_min_and_max "(min-width: 1px) and (max-height: 2px)" (by decide) (by decide)

/-- C1 (amended): the two comparators are exact mirrors whenever the
comparison is decided by the min/max priority rule, i.e. when `a` is
min-classified and `b` max-classified or vice versa.  (In the remaining
branches the claim fails: there the two comparators return identical,
not mirrored, values; see the counterexample.) -/
theorem mirror_on_priority_branches (a b : String)
    (h : ((isMinWidth a || isMinHeight a) && (isMaxWidth b || isMaxHeight b)) = true ∨
         ((isMaxWidth a || isMaxHeight a) && (isMinWidth b || isMinHeight b)) = true) :
    sortCSSmq a b = -(sortCSSmq.desktopFirst a b) := by
  rw [sortCSSmq_def, desktopFirst_def]
  rcases h with h | h
  · simp [h]
  · by_cases h1 : ((isMinWidth a || isMinHeight a) && (isMaxWidth b || isMaxHeight b)) = true
    · simp [h1]
    · simp [h1, h]

theorem mirror_on_priority_branches_witness :
    ((isMinWidth "(min-height: 3px)" || isMinHeight "(min-height: 3px)") &&
        (isMaxWidth "(max-height: 4px)" || isMaxHeight "(max-height: 4px)")) = true ∧
      sortCSSmq "(min-height: 3px)" "(max-height: 4px)" =
        -(sortCSSmq.desktopFirst "(min-height: 3px)" "(max-height: 4px)") := by
  refine ⟨by decide, ?_⟩
  exact mirror_on_priority_branches "(min-height: 3px)" "(max-height: 4px)" (Or.inl (by decide))

/-- C1 counterexample: with `A = "print"` (unmeasurable, no bound) and
`B = "screen and (min-width: 320px)"` (measurable), the comparison is
decided by the single-sentinel branch — not by a lexicographic tie-break —
yet both comparators return `1`, so the claimed mirror identity
`sortCSSmq A B = -(desktopFirst A B)` fails. -/
theorem mirror_claim_counterexample :
    getQueryLength "print" = none ∧
      getQueryLength "screen and (min-width: 320px)" = some 320 ∧
      sortCSSmq "print" "screen and (min-width: 320px)" = 1 ∧
      sortCSSmq.desktopFirst "print" "screen and (min-width: 320px)" = 1 ∧
      ¬(sortCSSmq "print" "screen and (min-width: 320px)" =
          -(sortCSSmq.desktopFirst "print" "screen and (min-width: 320px)")) := by
  refine ⟨by decide, by decide, by decide, by decide, by decide⟩

/-- C3 (amended): the mobile-first comparator satisfies the antisymmetry
identity `sortCSSmq a b = -(sortCSSmq b a)` (hence `sortCSSmq a a = 0`)
provided the two strings agree on their maximum-bound classification and
the two min/max priority checks do not both fire.  (Unconditionally the
claim fails; see the counterexample, where a string classified as both
min-bound and max-bound compares `-1` against itself.) -/
theorem sortCSSmq_antisymm (a b : String)
    (hmax : (isMaxWidth a || isMaxHeight a) = (isMaxWidth b || isMaxHeight b))
    (hboth : ¬(((isMinWidth a || isMinHeight a) && (isMaxWidth b || isMaxHeight b)) = true ∧
        ((isMaxWidth a || isMaxHeight a) && (isMinWidth b || isMinHeight b)) = true)) :
    sortCSSmq a b = -(sortCSSmq b a) := by
  rw [sortCSSmq_def a b, sortCSSmq_def b a]
  by_cases h1 : ((isMinWidth a || isMinHeight a) && (isMaxWidth b || isMaxHeight b)) = true
  · have h2 : ((isMaxWidth a || isMaxHeight a) && (isMinWidth b || isMinHeight b)) = false :=
      bool_eq_false fun h2 => hboth ⟨h1, h2⟩
    have h1c : ((isMaxWidth b || isMaxHeight b) && (isMinWidth a || isMinHeight a)) = true := by
      rw [Bool.and_comm]; exact h1
    have h2c : ((isMinWidth b || isMinHeight b) && (isMaxWidth a || isMaxHeight a)) = false := by
      rw [Bool.and_comm]; exact h2
    simp [h1, h1c, h2c]
  · by_cases h2 : ((isMaxWidth a || isMaxHeight a) && (isMinWidth b || isMinHeight b)) = true
    · have h2c : ((isMinWidth b || isMinHeight b) && (isMaxWidth a || isMaxHeight a)) = true := by
        rw [Bool.and_comm]; exact h2
      simp [h1, h2, h2c]
    · have h1f : ((isMinWidth a || isMinHeight a) && (isMaxWidth b || isMaxHeight b)) = false :=
        bool_eq_false h1
      have h2f : ((isMaxWidth a || isMaxHeight a) && (isMinWidth b || isMinHeight b)) = false :=
        bool_eq_false h2
      have h1c : ((isMinWidth b || isMinHeight b) && (isMaxWidth a || isMaxHeight a)) = false := by
        rw [Bool.and_comm]; exact h2f
      have h2c : ((isMaxWidth b || isMaxHeight b) && (isMinWidth a || isMinHeight a)) = false := by
        rw [Bool.and_comm]; exact h1f
      rw [h1f, h2f, h1c, h2c]
      simp only [Bool.false_eq_true, if_false]
      rcases hA : getQueryLength a with _ | la <;> rcases hB : getQueryLength b with _ | lb
      · exact localeCompare_antisymm a b
      · rfl
      · rfl
      · cases hmx : (isMaxWidth a || isMaxHeight a) with
        | false =>
          have hmxb : (isMaxWidth b || isMaxHeight b) = false := hmax ▸ hmx
          rcases lt_trichotomy la lb with h | h | h
          · simp only [gt_iff_lt, h, asymm h, hmx, hmxb, Bool.false_eq_true, if_true, if_false,
              ite_true, ite_false, eq_self_iff_true, not_false_iff]
          · subst h
            simp only [gt_iff_lt, lt_irrefl, if_false]
            exact localeCompare_antisymm a b
          · simp only [gt_iff_lt, h, asymm h, hmx, hmxb, Bool.false_eq_true, if_true, if_false,
              ite_true, ite_false, eq_self_iff_true, not_false_iff]
            all_goals decide
        | true =>
          have hmxb : (isMaxWidth b || isMaxHeight b) = true := hmax ▸ hmx
          rcases lt_trichotomy la lb with h | h | h
          · simp only [gt_iff_lt, h, asymm h, hmx, hmxb, Bool.false_eq_true, if_true, if_false,
              ite_true, ite_false, eq_self_iff_true, not_false_iff]
            all_goals decide
          · subst h
            simp only [gt_iff_lt, lt_irrefl, if_false]
            exact localeCompare_antisymm a b
          · simp only [gt_iff_lt, h, asymm h, hmx, hmxb, Bool.false_eq_true, if_true, if_false,
              ite_true, ite_false, eq_self_iff_true, not_false_iff]

theorem sortCSSmq_antisymm_witness :
    (isMaxWidth "(min-width: 1px)" || isMaxHeight "(min-width: 1px)") =
        (isMaxWidth "(min-width: 2px)" || isMaxHeight "(min-width: 2px)") ∧
      sortCSSmq "(min-width: 1px)" "(min-width: 2px)" =
        -(sortCSSmq "(min-width: 2px)" "(min-width: 1px)") := by
  refine ⟨by decide, ?_⟩
  exact sortCSSmq_antisymm "(min-width: 1px)" "(min-width: 2px)" (by decide)
    (fun h => by exact absurd h.1 (by decide))

/-- C3 counterexample: for the string
`"(min-width: 1px) and (max-height: 2px)"`, which is classified as both
min-bound and max-bound, comparing it with itself yields `-1`, not `0`,
and the value is nonzero yet not equal to the negation of the swapped
comparison (which is the same comparison). -/
theorem sortCSSmq_antisymm_counterexample :
    sortCSSmq "(min-width: 1px) and (max-height: 2px)"
        "(min-width: 1px) and (max-height: 2px)" = -1 ∧
      ¬(sortCSSmq "(min-width: 1px) and (max-height: 2px)"
            "(min-width: 1px) and (max-height: 2px)" = 0) ∧
      ¬(sortCSSmq "(min-width: 1px) and (max-height: 2px)"
            "(min-width: 1px) and (max-height: 2px)" =
          -(sortCSSmq "(min-width: 1px) and (max-height: 2px)"
              "(min-width: 1px) and (max-height: 2px)")) := by
  refine ⟨by decide, by decide, by decide⟩

/-- C7: when neither priority check fires and both lengths are measurable,
the mobile-first comparator puts the larger length after the smaller one
unless the first string is classified as a maximum-bound feature, in
which case the larger length sorts before the smaller one. -/
theorem sortCSSmq_length_direction (a b : String) (la lb : ℚ)
    (h1 : ¬(((isMinWidth a || isMinHeight a) && (isMaxWidth b || isMaxHeight b)) = true))
    (h2 : ¬(((isMaxWidth a || isMaxHeight a) && (isMinWidth b || isMinHeight b)) = true))
    (ha : getQueryLength a = some la) (hb : getQueryLength b = some lb) :
    (lb < la → sortCSSmq a b =
      (if (isMaxWidth a || isMaxHeight a) then -1 else 1)) ∧
    (la < lb → sortCSSmq a b =
      (if (isMaxWidth a || isMaxHeight a) then 1 else -1)) := by
  rw [sortCSSmq_def]
  constructor <;> intro h <;>
    simp [h1, h2, ha, hb, gt_iff_lt, h, asymm h]

theorem sortCSSmq_length_direction_witness :
    (100 : ℚ) < 200 ∧
      sortCSSmq "(max-width: 200px)" "(max-width: 100px)" =
        (if (isMaxWidth "(max-width: 200px)" || isMaxHeight "(max-width: 200px)")
         then -1 else 1) := by
  refine ⟨by decide, ?_⟩
  exact (sortCSSmq_length_direction "(max-width: 200px)" "(max-width: 100px)" 200 100
    (by decide) (by decide) (by decide) (by decide)).1 (by decide)

/-- C9: whenever neither priority check fires, the two extracted lengths
are not both the sentinel, and they are not equal, the two policies
return the identical value: the single-sentinel and unequal-length
branches of the two comparators are the same function. -/
theorem policies_identical_off_priority (a b : String)
    (h1 : ¬(((isMinWidth a || isMinHeight a) && (isMaxWidth b || isMaxHeight b)) = true))
    (h2 : ¬(((isMaxWidth a || isMaxHeight a) && (isMinWidth b || isMinHeight b)) = true))
    (h3 : ¬(getQueryLength a = none ∧ getQueryLength b = none))
    (h4 : getQueryLength a ≠ getQueryLength b) :
    sortCSSmq a b = sortCSSmq.desktopFirst a b := by
  rw [sortCSSmq_def, desktopFirst_def]
  rw [bool_eq_false h1, bool_eq_false h2]
  simp only [Bool.false_eq_true, if_false]
  rcases hA : getQueryLength a with _ | la <;> rcases hB : getQueryLength b with _ | lb
  · rfl
  · rfl
  · rfl
  · have hne : la ≠ lb := by
      rw [hA, hB] at h4
      simpa using h4
    rcases lt_trichotomy la lb with h | h | h
    · simp [gt_iff_lt, h, asymm h]
    · exact absurd h hne
    · simp [gt_iff_lt, h, asymm h]

theorem policies_identical_off_priority_witness :
    getQueryLength "tv" = none ∧
      getQueryLength "screen and (min-width: 640px)" = some 640 ∧
      sortCSSmq "tv" "screen and (min-width: 640px)" =
        sortCSSmq.desktopFirst "tv" "screen and (min-width: 640px)" := by
  refine ⟨by decide, by decide, ?_⟩
  exact policies_identical_off_priority "tv" "screen and (min-width: 640px)"
    (by decide) (by decide) (fun h => by exact absurd h.2 (by decide)) (by decide)

theorem scanNumUnit_eq_none (l : List Char)
    (h : ∀ i, matchNumUnitAt (l.drop i) = none) : scanNumUnit l = none := by
  induction l with
  | nil => exact h 0
  | cons c cs ih =>
    have h0 := h 0
    rw [List.drop_zero] at h0
    unfold scanNumUnit
    rw [h0]
    exact ih fun i => by
      have := h (i + 1)
      rwa [List.drop_succ_cons] at this

theorem scanNumUnit_first (l : List Char) (i : ℕ) (v : ℚ)
    (hnone : ∀ j, j < i → matchNumUnitAt (l.drop j) = none)
    (hi : matchNumUnitAt (l.drop i) = some v) : scanNumUnit l = some v := by
  induction l generalizing i with
  | nil =>
    rw [List.drop_nil] at hi
    exact hi
  | cons c cs ih =>
    cases i with
    | zero =>
      rw [List.drop_zero] at hi
      unfold scanNumUnit
      rw [hi]
    | succ i =>
      have h0 := hnone 0 (Nat.succ_pos i)
      rw [List.drop_zero] at h0
      unfold scanNumUnit
      rw [h0]
      refine ih i (fun j hj => ?_) ?_
      · have := hnone (j + 1) (Nat.succ_lt_succ hj)
        rwa [List.drop_succ_cons] at this
      · rwa [List.drop_succ_cons] at hi

/-- C8: `getQueryLength` returns the pixel-normalized value of the first
number/unit occurrence in the string (if the matcher fails at every
position before `i` and succeeds at `i` with value `v`, the result is
`v`); in particular `"(min-width: 1em)"` and `"(min-width: 16px)"` both
extract to length 16. -/
theorem getQueryLength_first_occurrence :
    (∀ (s : String) (i : ℕ) (v : ℚ),
        (∀ j, j < i → matchNumUnitAt (s.data.drop j) = none) →
        matchNumUnitAt (s.data.drop i) = some v →
        getQueryLength s = some v) ∧
      getQueryLength "(min-width: 1em)" = some 16 ∧
      getQueryLength "(min-width: 16px)" = some 16 := by
  refine ⟨?_, by decide, by decide⟩
  intro s i v hnone hi
  exact scanNumUnit_first s.data i v hnone hi

theorem getQueryLength_first_occurrence_witness :
    matchNumUnitAt ("1px".data.drop 0) = some 1 ∧ getQueryLength "1px" = some 1 := by
  refine ⟨by decide, ?_⟩
  exact getQueryLength_first_occurrence.1 "1px" 0 1
    (fun j hj => absurd hj (Nat.not_lt_zero j)) (by decide)

/-- C2 (amended): a string in which the number/unit matcher fails at every
position extracts to the sentinel; and whenever neither min/max priority
check fires, a string with sentinel length sorts after a string with a
measurable length under both policies (in both argument orders).  (The
priority-rule restriction is forced: without it the unmeasurable string
can sort first; see the counterexample.) -/
theorem sentinel_extraction_and_order :
    (∀ s : String, (∀ i, matchNumUnitAt (s.data.drop i) = none) →
        getQueryLength s = none) ∧
    (∀ a b : String,
        ¬(((isMinWidth a || isMinHeight a) && (isMaxWidth b || isMaxHeight b)) = true) →
        ¬(((isMaxWidth a || isMaxHeight a) && (isMinWidth b || isMinHeight b)) = true) →
        getQueryLength a = none → getQueryLength b ≠ none →
        sortCSSmq a b = 1 ∧ sortCSSmq.desktopFirst a b = 1 ∧
        sortCSSmq b a = -1 ∧ sortCSSmq.desktopFirst b a = -1) := by
  constructor
  · intro s h
    exact scanNumUnit_eq_none s.data h
  · intro a b h1 h2 ha hb
    rcases hB : getQueryLength b with _ | lb
    · exact absurd hB hb
    · have h1c : ((isMinWidth b || isMinHeight b) && (isMaxWidth a || isMaxHeight a)) = false := by
        rw [Bool.and_comm]; exact bool_eq_false h2
      have h2c : ((isMaxWidth b || isMaxHeight b) && (isMinWidth a || isMinHeight a)) = false := by
        rw [Bool.and_comm]; exact bool_eq_false h1
      rw [sortCSSmq_def a b, desktopFirst_def a b, sortCSSmq_def b a, desktopFirst_def b a]
      rw [bool_eq_false h1, bool_eq_false h2, h1c, h2c]
      simp only [Bool.false_eq_true, if_false]
      rw [ha, hB]
      exact ⟨rfl, rfl, rfl, rfl⟩

theorem sentinel_extraction_and_order_witness :
    getQueryLength "" = none ∧
      getQueryLength "print" = none ∧
      getQueryLength "screen and (min-width: 320px)" ≠ none ∧
      sortCSSmq "print" "screen and (min-width: 320px)" = 1 ∧
      sortCSSmq.desktopFirst "print" "screen and (min-width: 320px)" = 1 ∧
      sortCSSmq "screen and (min-width: 320px)" "print" = -1 ∧
      sortCSSmq.desktopFirst "screen and (min-width: 320px)" "print" = -1 := by
  have h2 := sentinel_extraction_and_order.2 "print" "screen and (min-width: 320px)"
    (by decide) (by decide) (by decide) (by decide)
  have h1 := sentinel_extraction_and_order.1 "" fun i => by
    rw [show "".data = ([] : List Char) from rfl, List.drop_nil]
    decide
  exact ⟨h1, by decide, by decide, h2.1, h2.2.1, h2.2.2.1, h2.2.2.2⟩

/-- C2 counterexample: for `a = "(min-width: x)"` (min-classified but
unmeasurable) and `b = "(max-width: 100px)"` (measurable), the priority
rule fires and the unmeasurable string sorts BEFORE the measurable one
under the mobile-first policy, refuting the unconditional claim that the
unmeasurable side always sorts after. -/
theorem sentinel_order_counterexample :
    getQueryLength "(min-width: x)" = none ∧
      getQueryLength "(max-width: 100px)" = some 100 ∧
      sortCSSmq "(min-width: x)" "(max-width: 100px)" = -1 := by
  exact ⟨by decide, by decide, by decide⟩

/-- C6 (amended): for each axis, when exactly one ordered combined
pattern matches, the corresponding predicate returns true and the
opposite predicate returns false; when neither combined pattern matches,
both predicates fall back to their single-sided tests.  (The exclusivity
proviso is forced: when both combined patterns match, both predicates
return true; see the counterexample.) -/
theorem testQuery_structure (s : String) :
    (minMaxWidth s = true → maxMinWidth s = false →
      isMinWidth s = true ∧ isMaxWidth s = false) ∧
    (maxMinWidth s = true → minMaxWidth s = false →
      isMaxWidth s = true ∧ isMinWidth s = false) ∧
    (minMaxWidth s = false → maxMinWidth s = false →
      isMinWidth s = minWidth s ∧ isMaxWidth s = maxWidth s) ∧
    (minMaxHeight s = true → maxMinHeight s = false →
      isMinHeight s = true ∧ isMaxHeight s = false) ∧
    (maxMinHeight s = true → minMaxHeight s = false →
      isMaxHeight s = true ∧ isMinHeight s = false) ∧
    (minMaxHeight s = false → maxMinHeight s = false →
      isMinHeight s = minHeight s ∧ isMaxHeight s = maxHeight s) := by
  unfold isMinWidth isMaxWidth isMinHeight isMaxHeight testQuery
  refine ⟨fun h h2 => ?_, fun h h2 => ?_, fun h h2 => ?_,
    fun h h2 => ?_, fun h h2 => ?_, fun h h2 => ?_⟩ <;> simp [h, h2]

theorem testQuery_structure_witness :
    minMaxWidth "(min-width: 5px) and (max-width: 7px)" = true ∧
      maxMinWidth "(min-width: 5px) and (max-width: 7px)" = false ∧
      isMinWidth "(min-width: 5px) and (max-width: 7px)" = true ∧
      isMaxWidth "(min-width: 5px) and (max-width: 7px)" = false := by
  have h := (testQuery_structure "(min-width: 5px) and (max-width: 7px)").1
    (by decide) (by decide)
  exact ⟨by decide, by decide, h.1, h.2⟩

/-- C6 counterexample: on a string where BOTH combined width patterns
match (`min...max` and `max...min`), both `isMinWidth` and `isMaxWidth`
return true, refuting the claim that a `min...max` match forces the
is-max predicate to false. -/
theorem testQuery_structure_counterexample :
    minMaxWidth "(min-width: 1px) and (max-width: 2px) and (min-width: 3px)" = true ∧
      maxMinWidth "(min-width: 1px) and (max-width: 2px) and (min-width: 3px)" = true ∧
      isMinWidth "(min-width: 1px) and (max-width: 2px) and (min-width: 3px)" = true ∧
      isMaxWidth "(min-width: 1px) and (max-width: 2px) and (min-width: 3px)" = true ∧
      ¬(isMaxWidth "(min-width: 1px) and (max-width: 2px) and (min-width: 3px)" = false) := by
  exact ⟨by decide, by decide, by decide, by decide, by decide⟩

/-- C5: the `minMaxWidth` source regex spells its optional device group
`(-device-)?` followed by the literal `-width` — it accepts only
`min-width` or the impossible `min-device--width` — unlike every sibling
pattern, which uses `(-device)?-width`.  Consequently the combined
`min...max` pattern fails on a device-prefixed range query and the
device-prefixed string is NOT classified like its non-device counterpart:
`isMaxWidth` is true on the device variant but false on the plain one. -/
theorem device_prefix_classification_bug :
    minMaxWidth "(min-device-width: 1px) and (max-device-width: 2px)" = false ∧
      minMaxWidth "(min-width: 1px) and (max-width: 2px)" = true ∧
      isMinWidth "(min-device-width: 1px) and (max-device-width: 2px)" = true ∧
      isMinWidth "(min-width: 1px) and (max-width: 2px)" = true ∧
      isMaxWidth "(min-device-width: 1px) and (max-device-width: 2px)" = true ∧
      isMaxWidth "(min-width: 1px) and (max-width: 2px)" = false := by
  exact ⟨by decide, by decide, by decide, by decide, by decide, by decide⟩

end SortCSSMQ
